/- Verification of the fpl-tool expected-points core.

   Shallow embedding of the repository's scoring, difficulty and ranking
   code (src/fpl/history.py, src/fpl/calculations.py, src/fpl/ranking.py)
   over lists of records with exact rational arithmetic.

   Modelling conventions used throughout:
   * pandas DataFrames become `List` of per-row structures;
   * numeric columns that may hold a missing value (NaN) become `Option ℚ`
     (`none` = NaN); pandas `sum`/`mean` skip NaN, which the helpers
     `sumOpt`/`meanOpt` reproduce (sum of an all-NaN column is 0, mean of an
     all-NaN column is NaN);
   * a Python exception escaping a function is modelled by `Option`/`Except`
     (`none`/`error` = the call raised);
   * `np.exp` is kept abstract as a parameter `expNeg : ℚ → ℚ` standing for
     the numeric evaluation of fun x => exp (-x); no claim depends on its
     values;
   * float division by a zero denominator (which yields inf/NaN in the
     source) is either modelled explicitly (`Option`, guarded `if`) where a
     claim depends on it, or noted in a comment where it cannot occur /
     no claim depends on it. -/
import Mathlib

/-- Player positions; the values of the `pos_abbr` column produced by
POS_MAP in helpers/config.py (Goalkeeper/Defender/Midfielder/Forward). -/
inductive Pos where
  | GKP
  | DEF
  | MID
  | FWD
deriving DecidableEq, Repr

/-- The FPL scoring-rules dictionary (data/scoring.json): point value per
stat, position-dependent where the game makes it so. -/
structure ScoringRules where
  goals_scored : Pos → ℚ
  assists : ℚ
  clean_sheets : Pos → ℚ
  goals_conceded : Pos → ℚ
  own_goals : ℚ
  penalties_saved : ℚ
  penalties_missed : ℚ
  yellow_cards : ℚ
  red_cards : ℚ
  saves : ℚ
  bonus : ℚ
  long_play : ℚ
  short_play : ℚ

/-- The parameters object loaded by load_parameters() from
data/parameters.json: the long-play minutes threshold and the
defensive-contribution thresholds for defenders / non-defenders. -/
structure Params where
  long_play_threshold : ℕ
  defcon_def : ℕ
  defcon_non_def : ℕ

namespace History

/- Embedding of src/fpl/history.py : calculate_expected_points, first at the
   level of one match-event row whose position is known. -/

/-- One row of the player match-history table, with its position already
mapped in (the code maps players_df["position"] through POS_MAP to get
`pos_abbr`).  Stat counters are the integers delivered by the FPL API;
the expected-stat columns are decimal numbers, modelled as ℚ. -/
structure MatchEvent where
  minutes : ℕ
  pos : Pos
  expected_goals : ℚ
  expected_assists : ℚ
  expected_goals_conceded : ℚ
  own_goals : ℕ
  penalties_saved : ℕ
  penalties_missed : ℕ
  yellow_cards : ℕ
  red_cards : ℕ
  saves : ℕ
  bonus : ℕ
  defensive_contribution : ℕ
  total_points : ℚ
deriving DecidableEq

/-- Appearance points (`long_short_points` in the source):
minutes >= long_play_threshold scores long_play, 0 < minutes < threshold
scores short_play. -/
def long_short_points (pr : Params) (sc : ScoringRules) (e : MatchEvent) : ℚ :=
  (if pr.long_play_threshold ≤ e.minutes then sc.long_play else 0)
    + (if 0 < e.minutes ∧ e.minutes < pr.long_play_threshold then sc.short_play else 0)

/-- Defensive-contribution bonus (`defensive_contribution_points` in the
source): 2 points when the defensive-action count meets the
position-group threshold (defenders vs. everyone else). -/
def defensive_contribution_points (pr : Params) (e : MatchEvent) : ℚ :=
  if e.pos = Pos.DEF ∧ pr.defcon_def ≤ e.defensive_contribution then 2
  else if e.pos ≠ Pos.DEF ∧ pr.defcon_non_def ≤ e.defensive_contribution then 2
  else 0

/-- Clean-sheet probability (`probability_clean_sheet` in the source):
exp(-expected_goals_conceded) when minutes meet the long-play threshold,
else 0.  `expNeg` abstracts the numeric evaluation of fun x => exp (-x). -/
def probability_clean_sheet (pr : Params) (expNeg : ℚ → ℚ) (e : MatchEvent) : ℚ :=
  if pr.long_play_threshold ≤ e.minutes then expNeg e.expected_goals_conceded else 0

/-- `expected_clean_sheet_points` in the source: the position's clean-sheet
value times the clean-sheet probability. -/
def expected_clean_sheet_points (pr : Params) (sc : ScoringRules) (expNeg : ℚ → ℚ)
    (e : MatchEvent) : ℚ :=
  sc.clean_sheets e.pos * probability_clean_sheet pr expNeg e

/-- The vectorised expected-points expression of calculate_expected_points,
written term by term as in the source.  `expected_goals_conceded // 2` is
Python float floor-division, i.e. the floor of the exact quotient;
`saves // 3` is integer division of the integer saves counter. -/
def expected_points (pr : Params) (sc : ScoringRules) (expNeg : ℚ → ℚ)
    (e : MatchEvent) : ℚ :=
  e.expected_goals * sc.goals_scored e.pos
    + e.expected_assists * sc.assists
    + expected_clean_sheet_points pr sc expNeg e
    + ((Int.floor (e.expected_goals_conceded / 2) : ℤ) : ℚ) * sc.goals_conceded e.pos
    + (e.own_goals : ℚ) * sc.own_goals
    + (e.penalties_saved : ℚ) * sc.penalties_saved
    + (e.penalties_missed : ℚ) * sc.penalties_missed
    + (e.yellow_cards : ℚ) * sc.yellow_cards
    + (e.red_cards : ℚ) * sc.red_cards
    + ((e.saves / 3 : ℕ) : ℚ) * sc.saves
    + (e.bonus : ℚ) * sc.bonus
    + defensive_contribution_points pr e
    + long_short_points pr sc e

/-- The per-90 normalisation used (twice, with identical structure) by the
source: np.where(minutes != 0, np.where(red_cards == 0,
(total / minutes) * 90, total), 0). -/
def per90_rate (minutes red_cards : ℕ) (total : ℚ) : ℚ :=
  if minutes ≠ 0 then
    (if red_cards = 0 then total / (minutes : ℚ) * 90 else total)
  else 0

/-- The `expected_points_per_90` column of one row. -/
def expected_points_per_90 (pr : Params) (sc : ScoringRules) (expNeg : ℚ → ℚ)
    (e : MatchEvent) : ℚ :=
  per90_rate e.minutes e.red_cards (expected_points pr sc expNeg e)

/-- The `actual_points_per_90` column of one row. -/
def actual_points_per_90 (e : MatchEvent) : ℚ :=
  per90_rate e.minutes e.red_cards e.total_points

/-- The `percentage_of_mins_played` column of one row: minutes / 90. -/
def percentage_of_mins_played (e : MatchEvent) : ℚ :=
  (e.minutes : ℚ) / 90

/- DataFrame-level model of calculate_expected_points, tracking which
   columns exist on the frame.  The derived columns are `Option` fields:
   `none` before the call (column absent), `some _` after the call.  For a
   row whose element id is missing from players_df the position lookup
   yields NaN and every scoring-rule map of it is NaN; the resulting
   NaN-valued derived cells are modelled as `none` (except where the
   np.where guards select the numeric 0 branch regardless). -/

/-- One row of the history DataFrame as calculate_expected_points sees it:
the SUPPORTED_HISTORY_METRICS source columns used by the computation,
plus the columns the function assigns (absent = `none` on input). -/
structure HRow where
  element : ℕ
  round : ℤ
  opponent_team_name : String
  minutes : ℕ
  total_points : ℚ
  expected_goals : ℚ
  expected_assists : ℚ
  expected_goals_conceded : ℚ
  own_goals : ℕ
  penalties_saved : ℕ
  penalties_missed : ℕ
  yellow_cards : ℕ
  red_cards : ℕ
  saves : ℕ
  bonus : ℕ
  defensive_contribution : ℕ
  position : Option Pos := none
  pos_abbr : Option Pos := none
  expected_points : Option ℚ := none
  expected_points_per_90 : Option ℚ := none
  actual_points_per_90 : Option ℚ := none
  percentage_of_mins_played : Option ℚ := none
deriving DecidableEq

/-- View an HRow with known position as a MatchEvent. -/
def toEvent (p : Pos) (r : HRow) : MatchEvent :=
  { minutes := r.minutes
    pos := p
    expected_goals := r.expected_goals
    expected_assists := r.expected_assists
    expected_goals_conceded := r.expected_goals_conceded
    own_goals := r.own_goals
    penalties_saved := r.penalties_saved
    penalties_missed := r.penalties_missed
    yellow_cards := r.yellow_cards
    red_cards := r.red_cards
    saves := r.saves
    bonus := r.bonus
    defensive_contribution := r.defensive_contribution
    total_points := r.total_points }

/-- The column assignments calculate_expected_points performs on one row.
`playersPos` is the players_df["position"] lookup (composed with POS_MAP);
a missing player gives NaN position and NaN-valued expected columns
(modelled as `none`), while actual_points_per_90 and
percentage_of_mins_played stay numeric, and the minutes == 0 branch of the
per-90 np.where yields 0 even under a NaN position. -/
def annotateRow (pr : Params) (sc : ScoringRules) (expNeg : ℚ → ℚ)
    (playersPos : ℕ → Option Pos) (r : HRow) : HRow :=
  match playersPos r.element with
  | some p =>
      { r with
        position := some p
        pos_abbr := some p
        expected_points := some (expected_points pr sc expNeg (toEvent p r))
        expected_points_per_90 :=
          some (History.expected_points_per_90 pr sc expNeg (toEvent p r))
        actual_points_per_90 := some (per90_rate r.minutes r.red_cards r.total_points)
        percentage_of_mins_played := some ((r.minutes : ℚ) / 90) }
  | none =>
      { r with
        position := none
        pos_abbr := none
        expected_points := none
        expected_points_per_90 := if r.minutes = 0 then some 0 else none
        actual_points_per_90 := some (per90_rate r.minutes r.red_cards r.total_points)
        percentage_of_mins_played := some ((r.minutes : ℚ) / 90) }

/-- calculate_expected_points as a state transformer on its history_df
argument: the Python function assigns its derived columns on the frame it
was given and returns that same frame, so the pair holds (post-state of
the argument, returned frame).  An empty frame is returned untouched. -/
def calculate_expected_points (pr : Params) (sc : ScoringRules) (expNeg : ℚ → ℚ)
    (playersPos : ℕ → Option Pos) (history_df : List HRow) :
    List HRow × List HRow :=
  if history_df.isEmpty then (history_df, history_df)
  else
    let out := history_df.map (annotateRow pr sc expNeg playersPos)
    (out, out)

/-- Erase the columns calculate_expected_points assigns, keeping the source
stat columns; used to state that the source stats are never altered. -/
def clear_derived (r : HRow) : HRow :=
  { r with
    position := none
    pos_abbr := none
    expected_points := none
    expected_points_per_90 := none
    actual_points_per_90 := none
    percentage_of_mins_played := none }

/- Model of the dtype behaviour of the same function: the expected-stat
   columns are converted with .astype(float), which parses numeric strings,
   maps missing values to NaN, and RAISES ValueError on a string that does
   not parse as a float.  (The errors="coerce" conversion the spec
   describes appears only in src/fpl/calculations.py.) -/

/-- A cell of an expected-stat column before dtype conversion: a numeric
value, a missing value (NaN/None), or a string that does not parse as a
float. -/
inductive PyVal where
  | num (q : ℚ)
  | nan
  | invalid
deriving DecidableEq

/-- pandas .astype(float) on one cell: numbers pass through, missing
values become NaN, a non-numeric string raises ValueError. -/
def astype_float : PyVal → Except Unit (Option ℚ)
  | PyVal.num q => Except.ok (some q)
  | PyVal.nan => Except.ok none
  | PyVal.invalid => Except.error ()

/-- A raw history row whose expected-stat cells have not been converted
yet (e.g. object dtype after a CSV round-trip). -/
structure RawRow where
  element : ℕ
  minutes : ℕ
  own_goals : ℕ
  penalties_saved : ℕ
  penalties_missed : ℕ
  yellow_cards : ℕ
  red_cards : ℕ
  saves : ℕ
  bonus : ℕ
  defensive_contribution : ℕ
  total_points : ℚ
  expected_goals : PyVal
  expected_assists : PyVal
  expected_goals_conceded : PyVal
deriving DecidableEq

/-- The expected_points cell of one raw row: the three .astype(float)
conversions, then the scoring sum.  A NaN in any converted cell makes the
whole sum NaN (`none`): every one of the three feeds an unguarded term of
the sum (the conceded-penalty term for expected_goals_conceded), so NaN
always propagates to the total rather than being excluded. -/
def row_checked (pr : Params) (sc : ScoringRules) (expNeg : ℚ → ℚ)
    (playersPos : ℕ → Option Pos) (r : RawRow) : Except Unit (Option ℚ) := do
  let xg ← astype_float r.expected_goals
  let xa ← astype_float r.expected_assists
  let xgc ← astype_float r.expected_goals_conceded
  match playersPos r.element, xg, xa, xgc with
  | some p, some a, some b, some c =>
      pure (some (expected_points pr sc expNeg
        { minutes := r.minutes
          pos := p
          expected_goals := a
          expected_assists := b
          expected_goals_conceded := c
          own_goals := r.own_goals
          penalties_saved := r.penalties_saved
          penalties_missed := r.penalties_missed
          yellow_cards := r.yellow_cards
          red_cards := r.red_cards
          saves := r.saves
          bonus := r.bonus
          defensive_contribution := r.defensive_contribution
          total_points := r.total_points }))
  | _, _, _, _ => pure none

/-- calculate_expected_points restricted to its dtype behaviour: the
expected_points column over the whole frame, or the ValueError the
vectorised .astype(float) raises when any cell fails to parse. -/
def calculate_expected_points_checked (pr : Params) (sc : ScoringRules)
    (expNeg : ℚ → ℚ) (playersPos : ℕ → Option Pos) :
    List RawRow → Except Unit (List (Option ℚ))
  | [] => Except.ok []
  | r :: rs => do
      let v ← row_checked pr sc expNeg playersPos r
      let vs ← calculate_expected_points_checked pr sc expNeg playersPos rs
      pure (v :: vs)

end History

namespace Calculations

/- Embedding of src/fpl/calculations.py. -/

/-- One row of the history frame as the aggregation pipeline reads it.
The four columns the pipeline converts with pd.to_numeric(errors="coerce")
are modelled post-coercion as `Option ℚ` (`none` = NaN). -/
structure PRow where
  element : ℕ
  round : ℤ
  opponent_team_name : String
  pos_abbr : Pos
  minutes : Option ℚ
  expected_points : Option ℚ
  total_points : Option ℚ
  fixture_difficulty : Option ℚ
deriving DecidableEq

/-- One row of the fixture-difficulty map fdr_df (one per team per
fixture, produced by _build_fixture_difficulty_map). -/
structure FdrRow where
  round : ℤ
  team_id : ℕ
  fixture_difficulty : ℚ
deriving DecidableEq

/-- Player metadata merged into the output (players_df keyed by element
id). -/
structure PMeta where
  team : ℕ
  web_name : String
  now_cost : ℚ
deriving DecidableEq

/-- pandas sum over a column with missing values: NaN cells are skipped,
an all-NaN (or empty) column sums to 0. -/
def sumOpt (l : List (Option ℚ)) : ℚ :=
  (l.filterMap id).sum

/-- pandas mean over a column with missing values: NaN cells are skipped,
an all-NaN (or empty) column has a NaN mean. -/
def meanOpt (l : List (Option ℚ)) : Option ℚ :=
  let v := l.filterMap id
  if v.isEmpty then none else some (v.sum / (v.length : ℚ))

/-- Division of two possibly-NaN cells.  NaN in either operand gives NaN.
A zero denominator yields inf in the source's float arithmetic; it is
represented here by ℚ's junk value x / 0 = 0, and no verified claim
depends on a curve value produced that way. -/
def divOpt (a b : Option ℚ) : Option ℚ :=
  match a, b with
  | some x, some y => some (x / y)
  | _, _ => none

/-- np.interp over the tail of the sorted breakpoint list, carrying the
previous point; y-values may be NaN (from the normalisation), and an
interpolation touching a NaN endpoint is NaN. -/
def interpFrom (a : ℚ) (p : ℚ × Option ℚ) : List (ℚ × Option ℚ) → Option ℚ
  | [] => p.2
  | q :: rest =>
      if a ≤ q.1 then do
        let v1 ← p.2
        let v2 ← q.2
        pure (v1 + (v2 - v1) * (a - p.1) / (q.1 - p.1))
      else interpFrom a q rest

/-- np.interp(a, xp, yp) with xp strictly increasing: clamp flat outside
the breakpoints, linear between consecutive breakpoints.  (np.interp on
an empty xp raises; that case is unreachable here because the curve
always contains level 3, and is given the junk value `none`.) -/
def interpOpt (a : ℚ) : List (ℚ × Option ℚ) → Option ℚ
  | [] => none
  | p :: rest => if a ≤ p.1 then p.2 else interpFrom a p rest

/-- The mean expected_points of the rows at one difficulty level, after
both columns are coerced with pd.to_numeric(errors="coerce"): rows whose
difficulty is NaN belong to no group, NaN expected_points are skipped by
the mean. -/
def level_mean (history_df : List PRow) (d : ℚ) : Option ℚ :=
  meanOpt ((history_df.filter (fun r => decide (r.fixture_difficulty = some d))).map
    (·.expected_points))

/-- The distinct non-NaN difficulty levels present, in the ascending order
pandas groupby produces. -/
def difficulty_levels (history_df : List PRow) : List ℚ :=
  ((history_df.filterMap (·.fixture_difficulty)).dedup).insertionSort (· ≤ ·)

/-- build_difficulty_lookup: mean expected_points per difficulty level,
each divided by the level-3 mean.  The source indexes the level-3 row with
.values[0], which raises IndexError when no row has difficulty 3 — that
raise is the `none` result.  (A zero or NaN level-3 mean does NOT raise:
the float division simply produces inf/NaN factors.) -/
def build_difficulty_lookup (history_df : List PRow) :
    Option (List (ℚ × Option ℚ)) :=
  let keys := difficulty_levels history_df
  if (3 : ℚ) ∈ keys then
    some (keys.map (fun d => (d, divOpt (level_mean history_df d) (level_mean history_df 3))))
  else none

/-- int(history_df["round"].max()): the largest round of the (nonempty)
history. -/
def latest_round (history_df : List PRow) : ℤ :=
  ((history_df.map (·.round)).maximum).getD 0

/-- The recency-window filter: keep the most recent time_period rounds
relative to the latest round of the FULL history
(round ∈ range(latest - n + 1, latest + 1)). -/
def windowed (history_df : List PRow) : Option ℤ → List PRow
  | none => history_df
  | some n =>
      let L := latest_round history_df
      history_df.filter (fun r => decide (L - n < r.round ∧ r.round ≤ L))

/-- The position filter: keep rows whose pos_abbr equals the requested
code, when one is requested. -/
def pos_filtered (df : List PRow) : Option Pos → List PRow
  | none => df
  | some p => df.filter (fun r => decide (r.pos_abbr = p))

/-- The distinct (round, opponent) fixture keys of one player in the
filtered frame: the first-level groupby keys that disambiguate double
gameweeks. -/
def fixture_keys (df : List PRow) (e : ℕ) : List (ℤ × String) :=
  ((df.filter (fun r => decide (r.element = e))).map
    (fun r => (r.round, r.opponent_team_name))).dedup

/-- First-level aggregate: the rows of one (element, round, opponent)
group, summed / averaged as in the first .agg call. -/
structure FixtureAgg where
  total_minutes : ℚ
  total_expected_points : ℚ
  total_actual_points : ℚ
  avg_fixture_difficulty : Option ℚ

/-- The first-level .agg over one (element, round, opponent) group. -/
def fixture_agg (df : List PRow) (e : ℕ) (k : ℤ × String) : FixtureAgg :=
  let g := df.filter (fun r =>
    decide (r.element = e ∧ r.round = k.1 ∧ r.opponent_team_name = k.2))
  { total_minutes := sumOpt (g.map (·.minutes))
    total_expected_points := sumOpt (g.map (·.expected_points))
    total_actual_points := sumOpt (g.map (·.total_points))
    avg_fixture_difficulty := meanOpt (g.map (·.fixture_difficulty)) }

/-- Second-level aggregate: one row per element after the collapse. -/
structure ElementAgg where
  element : ℕ
  total_minutes : ℚ
  total_expected_points : ℚ
  total_actual_points : ℚ
  avg_fixture_difficulty : Option ℚ

/-- The second-level .agg: sums of the per-fixture sums, mean of the
per-fixture difficulty means. -/
def element_agg (df : List PRow) (e : ℕ) : ElementAgg :=
  let gs := (fixture_keys df e).map (fixture_agg df e)
  { element := e
    total_minutes := (gs.map (·.total_minutes)).sum
    total_expected_points := (gs.map (·.total_expected_points)).sum
    total_actual_points := (gs.map (·.total_actual_points)).sum
    avg_fixture_difficulty := meanOpt (gs.map (·.avg_fixture_difficulty)) }

/-- The grouped element ids (the groupby index), in order of appearance. -/
def elements_of (df : List PRow) : List ℕ :=
  (df.map (·.element)).dedup

/-- The average difficulty of one team's fixtures over the horizon window
(rounds current_round + 1 .. current_round + horizon); `none` when the
team has no fixture row in the window (the team is then absent from the
groupby result). -/
def team_avg_difficulty (fdr_df : List FdrRow) (current_round horizon : ℤ)
    (t : ℕ) : Option ℚ :=
  let vs := (fdr_df.filter (fun f =>
    decide (f.team_id = t ∧ current_round < f.round ∧ f.round ≤ current_round + horizon))).map
    (·.fixture_difficulty)
  if vs.isEmpty then none else some (vs.sum / (vs.length : ℚ))

/-- compute_horizon_factor for one element: element → team → average
horizon difficulty → curve interpolation.  `none` at any stage is the NaN
the pandas .map / np.interp chain produces (missing player, team without
upcoming fixtures, or a NaN curve value). -/
def compute_horizon_factor (players_df : List (ℕ × PMeta)) (fdr_df : List FdrRow)
    (current_round horizon : ℤ) (curve : List (ℚ × Option ℚ)) (e : ℕ) : Option ℚ :=
  (players_df.lookup e).bind (fun m =>
    (team_avg_difficulty fdr_df current_round horizon m.team).bind (fun a =>
      interpOpt a curve))

/-- The recency factor of one element aggregate: the curve interpolated at
its average difficulty, after the fillna(3.0) applied to that average. -/
def recency_factor_of (curve : List (ℚ × Option ℚ)) (ea : ElementAgg) : Option ℚ :=
  interpOpt (ea.avg_fixture_difficulty.getD 3) curve

/-- The `if fdr_df is not None and horizon is not None` guard: the
difficulty adjustment runs only when both are supplied. -/
def adjustment (fdr_df : Option (List FdrRow)) (horizon : Option ℤ) :
    Option (List FdrRow × ℤ) :=
  match fdr_df, horizon with
  | some f, some z => some (f, z)
  | _, _ => none

/-- The horizon_factor column value of one element: the computed factor
reindexed and fillna(1.0) when the adjustment is active, NaN (the np.nan
assignment) otherwise. -/
def horizon_factor_col (players_df : List (ℕ × PMeta)) (current_round : ℤ)
    (curve : List (ℚ × Option ℚ)) (adj : Option (List FdrRow × ℤ)) (e : ℕ) :
    Option ℚ :=
  match adj with
  | some (f, z) => some ((compute_horizon_factor players_df f current_round z curve e).getD 1)
  | none => none

/-- The per-element scale: horizon_factor / recency_factor with
.fillna(1.0).replace([inf, -inf], 1.0) when the adjustment is active
(a NaN recency factor, or the infinite/NaN ratio a zero recency factor
produces, both end as 1.0), the scalar 1.0 otherwise. -/
def scale_of (players_df : List (ℕ × PMeta)) (current_round : ℤ)
    (curve : List (ℚ × Option ℚ)) (adj : Option (List FdrRow × ℤ))
    (ea : ElementAgg) : ℚ :=
  match adj with
  | some (f, z) =>
      let hf := (compute_horizon_factor players_df f current_round z curve ea.element).getD 1
      match recency_factor_of curve ea with
      | none => 1
      | some r => if r = 0 then 1 else hf / r
  | none => 1

/-- One output row before the metadata merge: the columns the pipeline
assigns on `grouped` (the total_* columns, dropped before the merge, are
not kept). -/
structure Agg where
  element : ℕ
  avg_fixture_difficulty : ℚ
  recency_factor : Option ℚ
  horizon_factor : Option ℚ
  expected_points_per_90 : ℚ
  actual_points_per_90 : ℚ
  fixture_count : ℕ
  percentage_of_mins_played : ℚ
  actual_points : ℚ
  expected_points : ℚ
deriving DecidableEq

/-- One merged output row: the aggregate columns plus the players_df
metadata of the left join (`none` when the element is missing from
players_df). -/
structure RankedRow extends Agg where
  meta : Option PMeta
deriving DecidableEq

/-- Assemble one element's output row: fillna(3.0) on the average
difficulty, the two factors, the zero-minutes-safe per-90 rates (the
scale multiplies only the expected rate), the fixture count (rows of this
element in the filtered frame), percentage of minutes, per-fixture actual
points, and scaled expected points. -/
def finalize (players_df : List (ℕ × PMeta)) (current_round : ℤ)
    (curve : List (ℚ × Option ℚ)) (adj : Option (List FdrRow × ℤ))
    (df : List PRow) (ea : ElementAgg) : Agg :=
  let fcount := (df.filter (fun r => decide (r.element = ea.element))).length
  let scale := scale_of players_df current_round curve adj ea
  let ep90 := if ea.total_minutes = 0 then 0
    else ea.total_expected_points / ea.total_minutes * 90 * scale
  let pct := ea.total_minutes / ((fcount : ℚ) * 90)
  { element := ea.element
    avg_fixture_difficulty := ea.avg_fixture_difficulty.getD 3
    recency_factor := recency_factor_of curve ea
    horizon_factor := horizon_factor_col players_df current_round curve adj ea.element
    expected_points_per_90 := ep90
    actual_points_per_90 := if ea.total_minutes = 0 then 0
      else ea.total_actual_points / ea.total_minutes * 90
    fixture_count := fcount
    percentage_of_mins_played := pct
    actual_points := ea.total_actual_points / (fcount : ℚ)
    expected_points := ep90 * pct }

/-- The pipeline's result: the difficulty curve it built and used, and the
final sorted rows. -/
structure PipelineResult where
  curve : List (ℚ × Option ℚ)
  rows : List RankedRow
deriving DecidableEq

/-- The descending expected_points order of the final
sort_values("expected_points", ascending=False). -/
def ep_order (x y : RankedRow) : Prop :=
  y.expected_points ≤ x.expected_points

instance : DecidableRel ep_order := fun x y =>
  inferInstanceAs (Decidable (y.expected_points ≤ x.expected_points))

/-- expected_points_per_90 (the aggregation-and-ranking pipeline).  The
difficulty curve is built from the full history before any filtering;
a raise inside build_difficulty_lookup propagates (result `none`).  Then:
recency window, position filter, two-level groupby, factors and scale,
per-90 rates, minutes-threshold filter, metadata left join, sort. -/
def expected_points_per_90 (history_df : List PRow)
    (players_df : List (ℕ × PMeta)) (position : Option Pos)
    (mins_threshold : Option ℚ) (time_period : Option ℤ)
    (fdr_df : Option (List FdrRow)) (horizon : Option ℤ) :
    Option PipelineResult :=
  match build_difficulty_lookup history_df with
  | none => none
  | some curve =>
      let L := latest_round history_df
      let df := pos_filtered (windowed history_df time_period) position
      let adj := adjustment fdr_df horizon
      let rows0 := (elements_of df).map (fun e =>
        finalize players_df L curve adj df (element_agg df e))
      let filtered := match mins_threshold with
        | none => rows0
        | some t => rows0.filter (fun a => decide (t ≤ a.percentage_of_mins_played))
      let merged := filtered.map (fun a =>
        ({ toAgg := a, meta := players_df.lookup a.element } : RankedRow))
      some { curve := curve, rows := merged.insertionSort ep_order }

/-- The rows of a pipeline call, empty when the call raised. -/
def rowsOf : Option PipelineResult → List RankedRow
  | none => []
  | some p => p.rows

end Calculations

namespace Ranking

/- Embedding of src/fpl/ranking.py : rank_players (the backend copy in
   src/backend/python_scripts/main.py performs the same filter and sort,
   then restricts the displayed columns). -/

/-- One row of the player DataFrame handed to rank_players: its minutes
and now_cost columns plus the value of the chosen metric column. -/
structure PlayerRec where
  minutes : ℚ
  now_cost : ℚ
  metric : ℚ
deriving DecidableEq

/-- The sort order of sort_values(by=[metric, "now_cost"],
ascending=[ascending, True]): lexicographic on the metric (in the
requested direction) then on now_cost ascending. -/
def sort_order (ascending : Bool) (a b : PlayerRec) : Prop :=
  (if ascending then a.metric < b.metric else b.metric < a.metric)
    ∨ (a.metric = b.metric ∧ a.now_cost ≤ b.now_cost)

instance (ascending : Bool) : DecidableRel (sort_order ascending) := fun a b => by
  unfold sort_order
  exact inferInstance

/-- rank_players: keep the rows with minutes strictly above the
threshold, then sort by the metric (descending unless `ascending`) with
ties broken by ascending cost. -/
def rank_players (df : List PlayerRec) (mins_threshold : ℚ)
    (ascending : Bool) : List PlayerRec :=
  (df.filter (fun r => decide (mins_threshold < r.minutes))).insertionSort
    (sort_order ascending)

end Ranking

/-- A concrete scoring-rules table (the game's published values) used by
the concrete witnesses and counterexamples below. -/
def sampleScoring : ScoringRules where
  goals_scored := fun p => match p with
    | Pos.GKP => 10
    | Pos.DEF => 6
    | Pos.MID => 5
    | Pos.FWD => 4
  assists := 3
  clean_sheets := fun p => match p with
    | Pos.GKP => 4
    | Pos.DEF => 4
    | Pos.MID => 1
    | Pos.FWD => 0
  goals_conceded := fun p => match p with
    | Pos.GKP => -1
    | Pos.DEF => -1
    | Pos.MID => 0
    | Pos.FWD => 0
  own_goals := -2
  penalties_saved := 5
  penalties_missed := -2
  yellow_cards := -1
  red_cards := -3
  saves := 1
  bonus := 1
  long_play := 2
  short_play := 1

/-- A concrete parameters object (60-minute long-play threshold and the
defensive-contribution thresholds) used by the concrete witnesses below. -/
def sampleParams : Params :=
  { long_play_threshold := 60, defcon_def := 10, defcon_non_def := 12 }

/-- A difficulty level is among the groupby keys exactly when some row
carries it (after coercion). -/
theorem mem_difficulty_levels (history_df : List Calculations.PRow) (d : ℚ) :
    d ∈ Calculations.difficulty_levels history_df
      ↔ ∃ r ∈ history_df, r.fixture_difficulty = some d := by
  unfold Calculations.difficulty_levels
  rw [(List.perm_insertionSort _ _).mem_iff, List.mem_dedup, List.mem_filterMap]

/-- C1: for every match-event row, the Scoring Engine's expected_points
equals the sum of its stated components: expected goals times the
position's goal value, expected assists times the assist value, the
clean-sheet expectation, floor(expected_goals_conceded / 2) times the
position's conceded penalty, the own-goal / penalty / card / bonus linear
terms, floor(saves / 3) times the save value, the defensive-contribution
bonus, and the appearance points. -/
theorem claim_C1_expected_points_is_component_sum (pr : Params)
    (sc : ScoringRules) (expNeg : ℚ → ℚ) (e : History.MatchEvent) :
    History.expected_points pr sc expNeg e =
      e.expected_goals * sc.goals_scored e.pos
        + e.expected_assists * sc.assists
        + History.expected_clean_sheet_points pr sc expNeg e
        + ((Int.floor (e.expected_goals_conceded / 2) : ℤ) : ℚ) * sc.goals_conceded e.pos
        + ((e.own_goals : ℚ) * sc.own_goals
            + (e.penalties_saved : ℚ) * sc.penalties_saved
            + (e.penalties_missed : ℚ) * sc.penalties_missed
            + (e.yellow_cards : ℚ) * sc.yellow_cards
            + (e.red_cards : ℚ) * sc.red_cards
            + (e.bonus : ℚ) * sc.bonus)
        + ((e.saves / 3 : ℕ) : ℚ) * sc.saves
        + History.defensive_contribution_points pr e
        + History.long_short_points pr sc e := by
  unfold History.expected_points
  ring

/-- C2: for every match-event row, the two per-90 columns follow the
stated rule: 0 when minutes == 0; the raw match total, unextrapolated,
when a red card is present (red_cards != 0); otherwise
(total / minutes) * 90. -/
theorem claim_C2_per90_normalisation (pr : Params) (sc : ScoringRules)
    (expNeg : ℚ → ℚ) (e : History.MatchEvent) :
    History.expected_points_per_90 pr sc expNeg e =
      (if e.minutes = 0 then 0
        else if e.red_cards ≠ 0 then History.expected_points pr sc expNeg e
        else History.expected_points pr sc expNeg e / (e.minutes : ℚ) * 90)
      ∧ History.actual_points_per_90 e =
        (if e.minutes = 0 then 0
          else if e.red_cards ≠ 0 then e.total_points
          else e.total_points / (e.minutes : ℚ) * 90) := by
  unfold History.expected_points_per_90 History.actual_points_per_90
    History.per90_rate
  constructor <;>
    (by_cases h : e.minutes = 0 <;> by_cases h2 : e.red_cards = 0 <;>
      simp [h, h2])

/-- C3: the difficulty curve the aggregation pipeline builds and uses is
computed from the full, unwindowed history: for every input, the curve of
the call with a recency window (time_period = n) equals the curve of the
call with time_period = None. -/
theorem claim_C3_window_never_alters_curve (history_df : List Calculations.PRow)
    (players_df : List (ℕ × Calculations.PMeta)) (position : Option Pos)
    (mins_threshold : Option ℚ) (n : ℤ)
    (fdr_df : Option (List Calculations.FdrRow)) (horizon : Option ℤ) :
    Option.map Calculations.PipelineResult.curve
      (Calculations.expected_points_per_90 history_df players_df position
        mins_threshold (some n) fdr_df horizon)
      = Option.map Calculations.PipelineResult.curve
        (Calculations.expected_points_per_90 history_df players_df position
          mins_threshold none fdr_df horizon) := by
  unfold Calculations.expected_points_per_90
  cases Calculations.build_difficulty_lookup history_df <;> simp

/-- C4: when the horizon or the forward fixture table is omitted, the
pipeline's scale is 1.0 for every player aggregate, and the pipeline's
output (its expected_points and expected_points_per_90 included) equals
exactly the output of the call with no difficulty adjustment at all. -/
theorem claim_C4_no_adjustment_is_identity (history_df : List Calculations.PRow)
    (players_df : List (ℕ × Calculations.PMeta)) (position : Option Pos)
    (mins_threshold : Option ℚ) (time_period : Option ℤ)
    (fdr_df : Option (List Calculations.FdrRow)) (horizon : Option ℤ)
    (h : fdr_df = none ∨ horizon = none) :
    (∀ (current_round : ℤ) (curve : List (ℚ × Option ℚ))
        (ea : Calculations.ElementAgg),
        Calculations.scale_of players_df current_round curve
          (Calculations.adjustment fdr_df horizon) ea = 1)
      ∧ Calculations.expected_points_per_90 history_df players_df position
          mins_threshold time_period fdr_df horizon
        = Calculations.expected_points_per_90 history_df players_df position
            mins_threshold time_period none none := by
  have hadj : Calculations.adjustment fdr_df horizon = none := by
    rcases h with h | h
    · subst h; cases horizon <;> rfl
    · subst h; cases fdr_df <;> rfl
  have hadj2 : (Calculations.adjustment none none :
      Option (List Calculations.FdrRow × ℤ)) = none := rfl
  constructor
  · intro current_round curve ea
    rw [hadj]
    rfl
  · unfold Calculations.expected_points_per_90
    rw [hadj, hadj2]

/-- Witness for C4: the theorem applied with the forward fixture table
omitted, a horizon of 2 and concrete (empty) frames. -/
theorem claim_C4_no_adjustment_is_identity_witness :
    ((none : Option (List Calculations.FdrRow)) = none ∨ (some 2 : Option ℤ) = none)
      ∧ Calculations.scale_of [] 0 []
          (Calculations.adjustment none (some 2))
          ⟨1, 0, 0, 0, none⟩ = 1
      ∧ Calculations.expected_points_per_90 [] [] none none none none (some 2)
        = Calculations.expected_points_per_90 [] [] none none none none none := by
  refine ⟨Or.inl rfl, ?_, ?_⟩
  · exact (claim_C4_no_adjustment_is_identity [] [] none none none none (some 2)
      (Or.inl rfl)).1 0 [] ⟨1, 0, 0, 0, none⟩
  · exact (claim_C4_no_adjustment_is_identity [] [] none none none none (some 2)
      (Or.inl rfl)).2

/-- C5 counterexample: a history whose only row sits at difficulty
level 3 with expected_points 0, so the level-3 mean is zero — where the
claim asserts a DataUnavailable failure — yet build_difficulty_lookup
returns normally (the source's float division by the zero mean produces
infinite factors, it does not raise). -/
theorem claim_C5_counterexample :
    Calculations.level_mean
        [{ element := 1, round := 1, opponent_team_name := "A",
           pos_abbr := Pos.MID, minutes := some 90, expected_points := some 0,
           total_points := some 1, fixture_difficulty := some 3 }] 3 = some 0
      ∧ (Calculations.build_difficulty_lookup
          [{ element := 1, round := 1, opponent_team_name := "A",
             pos_abbr := Pos.MID, minutes := some 90, expected_points := some 0,
             total_points := some 1, fixture_difficulty := some 3 }]).isSome
        = true := by
  constructor
  · simp [Calculations.level_mean, Calculations.meanOpt]
  · simp [Calculations.build_difficulty_lookup, Calculations.difficulty_levels,
      List.insertionSort, List.orderedInsert]

/-- C5 (amended): build_difficulty_lookup fails (the .values[0] lookup
raises IndexError) exactly when no history row has fixture difficulty 3;
a present level 3 never fails, even when its mean expected_points is zero
or NaN — the normalisation then silently produces non-finite factors. -/
theorem claim_C5_amended_fails_iff_level3_absent
    (history_df : List Calculations.PRow) :
    Calculations.build_difficulty_lookup history_df = none
      ↔ ∀ r ∈ history_df, r.fixture_difficulty ≠ some 3 := by
  unfold Calculations.build_difficulty_lookup
  by_cases h3 : (3 : ℚ) ∈ Calculations.difficulty_levels history_df
  · simp only [h3, if_true]
    constructor
    · intro hc
      exact absurd hc (by simp)
    · intro hall
      obtain ⟨r, hr, hfd⟩ := (mem_difficulty_levels history_df 3).mp h3
      exact absurd hfd (hall r hr)
  · simp only [h3, if_false, true_iff]
    intro r hr hfd
    exact h3 ((mem_difficulty_levels history_df 3).mpr ⟨r, hr, hfd⟩)

/-- A raw history row with well-formed stat cells, used by the C6
witness. -/
def sampleRawRow : History.RawRow :=
  { element := 1, minutes := 90, own_goals := 0, penalties_saved := 0,
    penalties_missed := 0, yellow_cards := 0, red_cards := 0, saves := 0,
    bonus := 0, defensive_contribution := 0, total_points := 2,
    expected_goals := History.PyVal.num (3 / 10),
    expected_assists := History.PyVal.num (1 / 10),
    expected_goals_conceded := History.PyVal.num (12 / 10) }

/-- The .astype(float) conversion succeeds on every cell that is not a
non-numeric string. -/
theorem astype_float_ok (v : History.PyVal) (h : v ≠ History.PyVal.invalid) :
    ∃ q, History.astype_float v = Except.ok q := by
  cases v with
  | num q => exact ⟨some q, rfl⟩
  | nan => exact ⟨none, rfl⟩
  | invalid => exact absurd rfl h

/-- Every row whose converted cells all parse yields an ok
expected_points cell. -/
theorem row_checked_ok (pr : Params) (sc : ScoringRules) (expNeg : ℚ → ℚ)
    (playersPos : ℕ → Option Pos) (r : History.RawRow)
    (h1 : r.expected_goals ≠ History.PyVal.invalid)
    (h2 : r.expected_assists ≠ History.PyVal.invalid)
    (h3 : r.expected_goals_conceded ≠ History.PyVal.invalid) :
    ∃ v, History.row_checked pr sc expNeg playersPos r = Except.ok v := by
  obtain ⟨q1, e1⟩ := astype_float_ok _ h1
  obtain ⟨q2, e2⟩ := astype_float_ok _ h2
  obtain ⟨q3, e3⟩ := astype_float_ok _ h3
  unfold History.row_checked
  rw [e1, e2, e3]
  cases playersPos r.element <;> cases q1 <;> cases q2 <;> cases q3 <;>
    exact ⟨_, rfl⟩

/-- C6 counterexample: a history frame whose expected_goals cell holds a
non-numeric string makes the Scoring Engine raise (the .astype(float)
conversion throws ValueError), where the claim asserts it never raises
and coerces invalid values to NaN. -/
theorem claim_C6_counterexample :
    History.calculate_expected_points_checked sampleParams sampleScoring
        (fun _ => 0) (fun _ => some Pos.MID)
        [{ element := 1, minutes := 90, own_goals := 0, penalties_saved := 0,
           penalties_missed := 0, yellow_cards := 0, red_cards := 0,
           saves := 0, bonus := 0, defensive_contribution := 0,
           total_points := 2, expected_goals := History.PyVal.invalid,
           expected_assists := History.PyVal.num 0,
           expected_goals_conceded := History.PyVal.num 1 }]
      = Except.error () := rfl

/-- C6 (amended): the Scoring Engine does not coerce invalid stat values:
a non-float-parseable string in an expected-stat column makes
.astype(float) raise.  It never raises only on frames whose expected-stat
cells are all numeric or missing, and a missing (NaN) cell then
propagates to a NaN expected_points for its row rather than being
excluded from the sum. -/
theorem claim_C6_amended_no_raise_only_without_invalid (pr : Params)
    (sc : ScoringRules) (expNeg : ℚ → ℚ) (playersPos : ℕ → Option Pos)
    (df : List History.RawRow)
    (h : ∀ r ∈ df, r.expected_goals ≠ History.PyVal.invalid
      ∧ r.expected_assists ≠ History.PyVal.invalid
      ∧ r.expected_goals_conceded ≠ History.PyVal.invalid) :
    ∃ l, History.calculate_expected_points_checked pr sc expNeg playersPos df
      = Except.ok l := by
  induction df with
  | nil => exact ⟨[], rfl⟩
  | cons r rs ih =>
      obtain ⟨h1, h2, h3⟩ := h r (List.mem_cons_self r rs)
      obtain ⟨v, hv⟩ := row_checked_ok pr sc expNeg playersPos r h1 h2 h3
      obtain ⟨l, hl⟩ := ih (fun x hx => h x (List.mem_cons_of_mem r hx))
      refine ⟨v :: l, ?_⟩
      have hstep : History.calculate_expected_points_checked pr sc expNeg
          playersPos (r :: rs)
          = (History.row_checked pr sc expNeg playersPos r).bind (fun v =>
              (History.calculate_expected_points_checked pr sc expNeg
                playersPos rs).bind (fun vs => Except.ok (v :: vs))) := rfl
      rw [hstep, hv, hl]
      rfl

/-- Witness for C6 (amended): the theorem applied to a concrete
well-formed one-row frame. -/
theorem claim_C6_amended_witness :
    (∀ r ∈ [sampleRawRow], r.expected_goals ≠ History.PyVal.invalid
      ∧ r.expected_assists ≠ History.PyVal.invalid
      ∧ r.expected_goals_conceded ≠ History.PyVal.invalid)
      ∧ ∃ l, History.calculate_expected_points_checked sampleParams
          sampleScoring (fun _ => 0) (fun _ => some Pos.MID) [sampleRawRow]
          = Except.ok l := by
  refine ⟨?_, claim_C6_amended_no_raise_only_without_invalid sampleParams
    sampleScoring (fun _ => 0) (fun _ => some Pos.MID) [sampleRawRow] ?_⟩ <;>
    · intro r hr
      rw [List.mem_singleton] at hr
      subst hr
      refine ⟨?_, ?_, ?_⟩ <;> simp [sampleRawRow]

/-- A history row as calculate_expected_points receives it (derived
columns absent), used by the C7 counterexample. -/
def sampleHRow : History.HRow :=
  { element := 1, round := 1, opponent_team_name := "X", minutes := 90,
    total_points := 2, expected_goals := 3 / 10, expected_assists := 1 / 10,
    expected_goals_conceded := 12 / 10, own_goals := 0, penalties_saved := 0,
    penalties_missed := 0, yellow_cards := 0, red_cards := 0, saves := 0,
    bonus := 0, defensive_contribution := 0 }

/-- The column assignments leave every source stat column of a row
unchanged. -/
theorem clear_derived_annotateRow (pr : Params) (sc : ScoringRules)
    (expNeg : ℚ → ℚ) (playersPos : ℕ → Option Pos) (r : History.HRow) :
    History.clear_derived (History.annotateRow pr sc expNeg playersPos r)
      = History.clear_derived r := by
  unfold History.annotateRow History.clear_derived
  cases playersPos r.element <;> rfl

/-- C7 counterexample: on a concrete one-row frame the history_df
argument does not come back unchanged — the call has assigned the derived
columns onto the very frame it was given (the claim asserts the argument
is left unchanged and the derived fields appear only in the returned
result, but the returned result IS the mutated argument). -/
theorem claim_C7_counterexample :
    (History.calculate_expected_points sampleParams sampleScoring (fun _ => 0)
        (fun _ => some Pos.MID) [sampleHRow]).1 ≠ [sampleHRow] := by
  intro h
  simp [History.calculate_expected_points, History.annotateRow, sampleHRow] at h

/-- C7 (amended): calculate_expected_points adds the derived columns to
its history_df argument in place and returns that same frame; it never
alters any source stat field of any row (the argument and the returned
frame agree, and erasing the derived columns recovers the input
exactly). -/
theorem claim_C7_amended_source_stats_preserved (pr : Params)
    (sc : ScoringRules) (expNeg : ℚ → ℚ) (playersPos : ℕ → Option Pos)
    (history_df : List History.HRow) :
    (History.calculate_expected_points pr sc expNeg playersPos history_df).1
      = (History.calculate_expected_points pr sc expNeg playersPos history_df).2
    ∧ ((History.calculate_expected_points pr sc expNeg playersPos
          history_df).1).map History.clear_derived
      = history_df.map History.clear_derived := by
  by_cases he : history_df.isEmpty
  · unfold History.calculate_expected_points
    simp [he]
  · have hcalc : History.calculate_expected_points pr sc expNeg playersPos
        history_df
        = (history_df.map (History.annotateRow pr sc expNeg playersPos),
            history_df.map (History.annotateRow pr sc expNeg playersPos)) := by
      unfold History.calculate_expected_points
      rw [if_neg he]
    rw [hcalc]
    refine ⟨rfl, ?_⟩
    rw [List.map_map]
    exact List.map_congr_left (fun r _ =>
      clear_derived_annotateRow pr sc expNeg playersPos r)

/-- C9: the minutes-threshold filter is inclusive: a player aggregate is
in the thresholded output exactly when it is in the unthresholded output
of the same query and its percentage_of_mins_played is >= the threshold
(so a player sitting exactly at the threshold is kept). -/
theorem claim_C9_minutes_threshold_inclusive
    (history_df : List Calculations.PRow)
    (players_df : List (ℕ × Calculations.PMeta)) (position : Option Pos)
    (t : ℚ) (time_period : Option ℤ) (fdr_df : Option (List Calculations.FdrRow))
    (horizon : Option ℤ) (r : Calculations.RankedRow) :
    r ∈ Calculations.rowsOf (Calculations.expected_points_per_90 history_df
        players_df position (some t) time_period fdr_df horizon)
      ↔ r ∈ Calculations.rowsOf (Calculations.expected_points_per_90 history_df
          players_df position none time_period fdr_df horizon)
        ∧ t ≤ r.percentage_of_mins_played := by
  unfold Calculations.expected_points_per_90
  cases hb : Calculations.build_difficulty_lookup history_df with
  | none => simp [Calculations.rowsOf]
  | some curve =>
      dsimp only [Calculations.rowsOf]
      rw [(List.perm_insertionSort _ _).mem_iff,
        (List.perm_insertionSort _ _).mem_iff]
      constructor
      · intro hm
        obtain ⟨a, haf, hmk⟩ := List.mem_map.mp hm
        obtain ⟨ha0, hp⟩ := List.mem_filter.mp haf
        subst hmk
        exact ⟨List.mem_map.mpr ⟨a, ha0, rfl⟩, by simpa using hp⟩
      · rintro ⟨hm, hpct⟩
        obtain ⟨a, ha0, hmk⟩ := List.mem_map.mp hm
        subst hmk
        exact List.mem_map.mpr
          ⟨a, List.mem_filter.mpr ⟨ha0, by simpa using hpct⟩, rfl⟩

/-- C8: in a difficulty-adjusted query, every output row of a player
whose team has no fixture row inside the horizon window after the current
round (the latest round of the full history) carries the neutral horizon
factor 1.0: the factor series has no entry for such a team, and the
pipeline's fillna(1.0) turns the resulting NaN into 1.0. -/
theorem claim_C8_no_upcoming_fixtures_neutral_factor
    (history_df : List Calculations.PRow)
    (players_df : List (ℕ × Calculations.PMeta)) (position : Option Pos)
    (mins_threshold : Option ℚ) (time_period : Option ℤ)
    (fdrL : List Calculations.FdrRow) (hz : ℤ) (m : Calculations.PMeta)
    (r : Calculations.RankedRow)
    (hmem : r ∈ Calculations.rowsOf (Calculations.expected_points_per_90
      history_df players_df position mins_threshold time_period (some fdrL)
      (some hz)))
    (hlook : players_df.lookup r.element = some m)
    (hnofix : ∀ f ∈ fdrL, f.team_id = m.team →
      ¬(Calculations.latest_round history_df < f.round
        ∧ f.round ≤ Calculations.latest_round history_df + hz)) :
    r.horizon_factor = some 1 := by
  unfold Calculations.expected_points_per_90 at hmem
  cases hb : Calculations.build_difficulty_lookup history_df with
  | none =>
      rw [hb] at hmem
      simp [Calculations.rowsOf] at hmem
  | some curve =>
      rw [hb] at hmem
      dsimp only [Calculations.rowsOf] at hmem
      rw [(List.perm_insertionSort _ _).mem_iff] at hmem
      obtain ⟨a, haf, hmk⟩ := List.mem_map.mp hmem
      have ha0 : a ∈ (Calculations.elements_of (Calculations.pos_filtered
          (Calculations.windowed history_df time_period) position)).map
            (fun e => Calculations.finalize players_df
              (Calculations.latest_round history_df) curve
              (Calculations.adjustment (some fdrL) (some hz))
              (Calculations.pos_filtered
                (Calculations.windowed history_df time_period) position)
              (Calculations.element_agg (Calculations.pos_filtered
                (Calculations.windowed history_df time_period) position) e)) := by
        cases mins_threshold with
        | none => exact haf
        | some t => exact (List.mem_filter.mp haf).1
      obtain ⟨e, _, hfin⟩ := List.mem_map.mp ha0
      have hhf : r.horizon_factor = a.horizon_factor := by rw [← hmk]
      have helem : r.element = a.element := by rw [← hmk]
      rw [← hfin] at hhf helem
      dsimp only [Calculations.finalize, Calculations.element_agg] at hhf helem
      rw [helem] at hlook
      rw [hhf]
      dsimp only [Calculations.horizon_factor_col, Calculations.adjustment]
      have hteam : Calculations.team_avg_difficulty fdrL
          (Calculations.latest_round history_df) hz m.team = none := by
        unfold Calculations.team_avg_difficulty
        have hfil : fdrL.filter (fun f => decide (f.team_id = m.team
            ∧ Calculations.latest_round history_df < f.round
            ∧ f.round ≤ Calculations.latest_round history_df + hz)) = [] := by
          rw [List.filter_eq_nil_iff]
          intro f hf
          simp only [decide_eq_true_eq, not_and]
          intro h1 h2 h3
          exact hnofix f hf h1 ⟨h2, h3⟩
        rw [hfil]
        rfl
      have hc : Calculations.compute_horizon_factor players_df fdrL
          (Calculations.latest_round history_df) hz curve e = none := by
        unfold Calculations.compute_horizon_factor
        rw [hlook]
        simp [hteam]
      rw [hc]
      rfl

/-- A one-row history, its player table and the corresponding pipeline
output row, used by the C8 witness: the player's team (id 5) has no row
at all in the supplied fixture-difficulty table. -/
def sampleHistory : List Calculations.PRow :=
  [{ element := 1, round := 1, opponent_team_name := "A", pos_abbr := Pos.MID,
     minutes := some 90, expected_points := some 2, total_points := some 3,
     fixture_difficulty := some 3 }]

/-- The player-metadata table of the C8 witness. -/
def samplePlayers : List (ℕ × Calculations.PMeta) :=
  [(1, { team := 5, web_name := "A", now_cost := 10 })]

/-- The single output row the pipeline produces for the C8 witness
query. -/
def sampleRanked : Calculations.RankedRow :=
  { element := 1, avg_fixture_difficulty := 3, recency_factor := some 1,
    horizon_factor := some 1, expected_points_per_90 := 2,
    actual_points_per_90 := 3, fixture_count := 1,
    percentage_of_mins_played := 1, actual_points := 3, expected_points := 2,
    meta := some { team := 5, web_name := "A", now_cost := 10 } }

/-- Witness for C8: the theorem applied to the concrete one-player query
with an empty forward fixture table and horizon 1. -/
theorem claim_C8_no_upcoming_fixtures_neutral_factor_witness :
    (sampleRanked ∈ Calculations.rowsOf (Calculations.expected_points_per_90
        sampleHistory samplePlayers none none none (some []) (some 1)))
      ∧ samplePlayers.lookup sampleRanked.element
          = some { team := 5, web_name := "A", now_cost := 10 }
      ∧ (∀ f ∈ ([] : List Calculations.FdrRow),
          f.team_id = ({ team := 5, web_name := "A", now_cost := 10 } :
            Calculations.PMeta).team →
          ¬(Calculations.latest_round sampleHistory < f.round
            ∧ f.round ≤ Calculations.latest_round sampleHistory + 1))
      ∧ sampleRanked.horizon_factor = some 1 := by
  have hmem : sampleRanked ∈ Calculations.rowsOf
      (Calculations.expected_points_per_90 sampleHistory samplePlayers none
        none none (some []) (some 1)) := by
    norm_num [Calculations.rowsOf, Calculations.expected_points_per_90,
      Calculations.build_difficulty_lookup, Calculations.difficulty_levels,
      Calculations.level_mean, Calculations.divOpt, Calculations.meanOpt,
      Calculations.sumOpt, Calculations.windowed, Calculations.pos_filtered,
      Calculations.elements_of, Calculations.element_agg,
      Calculations.fixture_keys, Calculations.fixture_agg,
      Calculations.finalize, Calculations.scale_of,
      Calculations.recency_factor_of, Calculations.horizon_factor_col,
      Calculations.adjustment, Calculations.compute_horizon_factor,
      Calculations.team_avg_difficulty, Calculations.interpOpt,
      Calculations.interpFrom, List.insertionSort, List.orderedInsert,
      List.lookup, List.filterMap_cons, List.filterMap_nil, List.sum_cons,
      List.sum_nil, List.length, List.isEmpty, Option.getD,
      sampleHistory, samplePlayers, sampleRanked]
  have hlook : samplePlayers.lookup sampleRanked.element
      = some { team := 5, web_name := "A", now_cost := 10 } := rfl
  have hnofix : ∀ f ∈ ([] : List Calculations.FdrRow),
      f.team_id = ({ team := 5, web_name := "A", now_cost := 10 } :
        Calculations.PMeta).team →
      ¬(Calculations.latest_round sampleHistory < f.round
        ∧ f.round ≤ Calculations.latest_round sampleHistory + 1) := by
    intro f hf
    cases hf
  exact ⟨hmem, hlook, hnofix,
    claim_C8_no_upcoming_fixtures_neutral_factor sampleHistory samplePlayers
      none none none [] 1 { team := 5, web_name := "A", now_cost := 10 }
      sampleRanked hmem hlook hnofix⟩

/-- C10: rank_players keeps exactly the rows whose minutes are strictly
above the threshold (a player at exactly the threshold is excluded), and
its default (descending) output is ordered by the metric descending with
ties broken by ascending now_cost. -/
theorem claim_C10_rank_players_filter_and_order
    (df : List Ranking.PlayerRec) (t : ℚ) :
    (∀ x, x ∈ Ranking.rank_players df t false ↔ x ∈ df ∧ t < x.minutes)
      ∧ (Ranking.rank_players df t false).Sorted
          (fun a b => b.metric < a.metric
            ∨ (a.metric = b.metric ∧ a.now_cost ≤ b.now_cost)) := by
  haveI htot : IsTotal Ranking.PlayerRec (Ranking.sort_order false) := by
    constructor
    intro a b
    show (b.metric < a.metric ∨ (a.metric = b.metric ∧ a.now_cost ≤ b.now_cost))
      ∨ (a.metric < b.metric ∨ (b.metric = a.metric ∧ b.now_cost ≤ a.now_cost))
    rcases lt_trichotomy a.metric b.metric with h | h | h
    · exact Or.inr (Or.inl h)
    · rcases le_total a.now_cost b.now_cost with hc | hc
      · exact Or.inl (Or.inr ⟨h, hc⟩)
      · exact Or.inr (Or.inr ⟨h.symm, hc⟩)
    · exact Or.inl (Or.inl h)
  haveI htrans : IsTrans Ranking.PlayerRec (Ranking.sort_order false) := by
    constructor
    intro a b c hab hbc
    rcases hab with h1 | ⟨h1, hc1⟩ <;> rcases hbc with h2 | ⟨h2, hc2⟩
    · exact Or.inl (h2.trans h1)
    · exact Or.inl (by rw [← h2]; exact h1)
    · exact Or.inl (by rw [h1]; exact h2)
    · exact Or.inr ⟨h1.trans h2, le_trans hc1 hc2⟩
  constructor
  · intro x
    unfold Ranking.rank_players
    rw [(List.perm_insertionSort _ _).mem_iff, List.mem_filter]
    simp
  · exact List.sorted_insertionSort (Ranking.sort_order false) _
